import Mathlib

/-!
Shallow embedding of the LinkedIn lead pipeline (src/Scraper.py,
src/Messanger.py, src/runPipline.py): CSV loading and filtering,
per-record status classification, pacing delays, and CSV persistence.
Browser interactions are abstracted as per-record environments that record
what the page contains and which automation step raises (and with which
Selenium exception class); everything else is translated directly from the
source.
-/

namespace UI1stTry

/-- Python substring membership (the XPath `contains` test and the
`name in aria_label` test): does `pat` start at the head of `s`? -/
def startsWithChars : List Char → List Char → Bool
  | [], _ => true
  | _ :: _, [] => false
  | p :: ps, c :: cs => p == c && startsWithChars ps cs

/-- Does `pat` occur anywhere in the character list? -/
def hasSubstrAux (pat : List Char) : List Char → Bool
  | [] => pat.isEmpty
  | c :: cs => startsWithChars pat (c :: cs) || hasSubstrAux pat cs

/-- Python `pat in s` on strings. -/
def strContains (s pat : String) : Bool := hasSubstrAux pat.toList s.toList

/-- Model of `pandas.DataFrame.drop_duplicates(subset=[k], keep="first")`:
keep a record iff its key was not seen on an earlier record. -/
def dedupeAux {α β : Type*} [DecidableEq β] (key : α → β) : List β → List α → List α
  | _, [] => []
  | seen, x :: xs =>
    if key x ∈ seen then dedupeAux key seen xs
    else x :: dedupeAux key (key x :: seen) xs

/-- De-duplication by a key, keeping the first occurrence, order-stable. -/
def dedupeBy {α β : Type*} [DecidableEq β] (key : α → β) (l : List α) : List α :=
  dedupeAux key [] l

namespace LinkedInMessenger

/-- Fields of `MessengerConfig` that the messaging stage's control flow
reads (credentials, paths and flags only feed the external browser). -/
structure MessengerConfig where
  messages : List String
  min_delay_sec : ℚ
  max_delay_sec : ℚ
deriving DecidableEq

/-- One raw CSV file: a header row and data rows of text cells. -/
structure RawCsv where
  header : List String
  rows : List (List String)
deriving DecidableEq

/-- Model of a `pandas.read_csv` cell: an empty field is read as NaN
(`none`), any other text as itself. -/
def readCell (s : String) : Option String := if s = "" then none else some s

/-- A lead row after `dropna(subset=["LinkedIn URL"])` (Messanger.py line
193): the URL cell is present; the Name cell may still be NaN. -/
structure LeadRow where
  name : Option String
  url : String
deriving DecidableEq

/-- Cell of a parsed row at column index `j`; a row shorter than the
header reads as NaN there, as in pandas. -/
def cellAt (row : List (Option String)) (j : Nat) : Option String :=
  (row[j]?).join

/-- Messanger.py lines 189-193: `read_csv`, the required-column check
(raising `ValueError` when 'Name' or 'LinkedIn URL' is absent), and
`dropna(subset=["LinkedIn URL"])`. -/
def load (csv : RawCsv) : Except String (List LeadRow) :=
  if "LinkedIn URL" ∉ csv.header ∨ "Name" ∉ csv.header then
    .error "CSV must contain Name and LinkedIn URL columns"
  else
    .ok (csv.rows.filterMap fun raw =>
      match cellAt (raw.map readCell) (csv.header.indexOf "LinkedIn URL") with
      | some u => some { name := cellAt (raw.map readCell) (csv.header.indexOf "Name"),
                         url := u }
      | none => none)

/-- Python `str(x)` applied to a pandas cell (Messanger.py line 198): a
NaN cell prints as the string "nan". -/
def pyStr : Option String → String
  | none => "nan"
  | some s => s

/-- Python `str.split()` with no argument: split on runs of whitespace,
producing no empty tokens. `acc` holds the current token reversed. -/
def pySplitAux : List Char → List Char → List String
  | [], acc => if acc.isEmpty then [] else [String.mk acc.reverse]
  | c :: cs, acc =>
    if c.isWhitespace then
      if acc.isEmpty then pySplitAux cs []
      else String.mk acc.reverse :: pySplitAux cs []
    else pySplitAux cs (c :: acc)

/-- Python `s.split()`. -/
def pySplit (s : String) : List String := pySplitAux s.toList []

/-- Truthiness of Python `s.strip()`: true iff some character of `s` is
not whitespace. -/
def stripTruthy (s : String) : Bool := s.toList.any fun c => !c.isWhitespace

/-- Messanger.py line 102:
`first = name.split()[0] if isinstance(name, str) and name.strip() else ""`
(the `isinstance` conjunct is always true there, because line 198 already
applied `str`). -/
def firstName (name : String) : String :=
  if stripTruthy name then (pySplit name).headD "" else ""

/-- First-name extraction as the messaging stage applies it to a record's
Name cell: line 198 stringifies the cell, line 102 extracts the token. -/
def appliedFirst (v : Option String) : String := firstName (pyStr v)

/-- Per-record page and automation behaviour for one messaging attempt.
Each flag says whether the corresponding step of
`send_message_to_profile` raises. -/
structure MsgEnv where
  /-- `driver.get(profile_url)` raises (line 99, outside every try block). -/
  navFails : Bool
  /-- the first try block (listing or clicking a Message button) raises. -/
  openExc : Bool
  /-- `(is_displayed, is_enabled)` of each found Message button. -/
  msgButtons : List (Bool × Bool)
  /-- waiting for the compose box raises. -/
  boxWaitExc : Bool
  /-- choosing, formatting or typing the message raises. -/
  typeExc : Bool
  /-- clicking Send or confirming the cleared box raises. -/
  sendExc : Bool
deriving DecidableEq

/-- Messanger.py lines 96-172 after navigation succeeded: the three try
blocks, each mapping any raise (and the no-button and no-template cases)
to "Failed", otherwise ending in "Message Sent". -/
def send_message_to_profile (messages : List String) (env : MsgEnv) : String :=
  if env.openExc then "Failed"
  else if (env.msgButtons.find? fun b => b.1 && b.2).isNone then "Failed"
  else if env.boxWaitExc then "Failed"
  else if messages.isEmpty then "Failed"
  else if env.typeExc then "Failed"
  else if env.sendExc then "Failed"
  else "Message Sent"

/-- The messaging stage's fixed outcome label set. -/
def msgLabels : List String := ["Message Sent", "Failed"]

/-- How a messenger run aborts: the `ValueError` of the column check, or
an uncaught raise from the per-record navigation. -/
inductive MsgAbort
  | schemaError
  | navError
deriving DecidableEq

/-- `random.uniform(lo, hi) = lo + (hi - lo) * random()` with
`random() ∈ [0, 1)` (Messanger.py line 205). -/
def uniformDraw (lo hi t : ℚ) : ℚ := lo + (hi - lo) * t

/-- Messanger.py lines 197-207: the per-lead loop. The navigation inside
`send_message_to_profile` (line 99) sits outside its try blocks, so a
raise there propagates and aborts the loop; otherwise the record gets a
status and a pacing delay drawn by `random.uniform` is slept. Returns the
(record, status) pairs and the slept delays. -/
def runLoop (cfg : MessengerConfig) (envs : Nat → MsgEnv) (draws : Nat → ℚ) :
    Nat → List LeadRow → Except Unit (List (LeadRow × String) × List ℚ)
  | _, [] => .ok ([], [])
  | i, r :: rs =>
    if (envs i).navFails then .error ()
    else
      match runLoop cfg envs draws (i + 1) rs with
      | .error e => .error e
      | .ok (outs, ds) =>
        .ok ((r, send_message_to_profile cfg.messages (envs i)) :: outs,
          uniformDraw cfg.min_delay_sec cfg.max_delay_sec (draws i) :: ds)

/-- Messanger.py lines 184-214: load and filter the CSV (a missing
required column raises `ValueError`), process every lead, and only then
write the single output CSV (the filtered rows, each with its Result).
The second component lists the CSV writes the run performed; an aborted
run performs none. -/
def run (cfg : MessengerConfig) (envs : Nat → MsgEnv) (draws : Nat → ℚ)
    (csv : RawCsv) :
    Except MsgAbort (List (LeadRow × String) × List ℚ) ×
      List (List (LeadRow × String)) :=
  match load csv with
  | .error _ => (.error .schemaError, [])
  | .ok rows =>
    match runLoop cfg envs draws 0 rows with
    | .error _ => (.error .navError, [])
    | .ok (outs, ds) => (.ok (outs, ds), [outs])

end LinkedInMessenger

namespace LinkedInScraper

/-- Fields of `ScraperConfig` that the connection stage's control flow
reads. There is no pacing interval in this config: the only between-record
sleep is the fixed `page_load_sleep`. -/
structure ScraperConfig where
  page_load_sleep : ℚ
  output_csv_path : Option String
deriving DecidableEq

/-- The Selenium exception classes the classifier's except ladder
distinguishes. -/
inductive SelExc
  | timeoutExc
  | noSuchElementExc
  | otherExc
deriving DecidableEq

/-- One scraped profile (Scraper.py line 149). -/
structure Profile where
  name : String
  title : String
  url : String
deriving DecidableEq

/-- One output record of the connection stage, with the columns
Name, Title, LinkedIn URL, Connection (Scraper.py lines 273-280). -/
structure ResultRow where
  name : String
  title : String
  url : String
  connection : String
deriving DecidableEq

/-- Per-record page and automation behaviour for one connection attempt. -/
structure ConnEnv where
  /-- `driver.get(link)` raises (line 199, outside the try block). -/
  navFails : Bool
  /-- aria-labels of the page's buttons. -/
  ariaLabels : List String
  /-- scrolling to or clicking the selected invite button raises. -/
  clickInviteExc : Option SelExc
  /-- waiting for the confirmation dialog fails: `wait.until` raises
  `TimeoutException` when the dialog never shows up within the bound. -/
  dialogExc : Option SelExc
  /-- waiting for the clickable 'Send without a note' button fails;
  likewise a `TimeoutException` on timeout. -/
  sendBtnExc : Option SelExc
  /-- scrolling to or clicking 'Send without a note' raises. -/
  sendClickExc : Option SelExc
  /-- the page has a button with span text 'Pending' (line 255). -/
  hasPending : Bool
  /-- the page has a button with span text 'Follow' (line 259). -/
  hasFollow : Bool
deriving DecidableEq

/-- Scraper.py lines 207-210: the XPath keeps the buttons whose
aria-label contains both 'Invite' and 'to connect'. -/
def inviteButtons (env : ConnEnv) : List String :=
  env.ariaLabels.filter fun a => strContains a "Invite" && strContains a "to connect"

/-- Scraper.py lines 212-219: the first invite button whose aria-label
contains the record's name. -/
def selectedInvite (name : String) (env : ConnEnv) : Option String :=
  (inviteButtons env).find? fun a => strContains a name

/-- Scraper.py lines 222-249, after the invite button was selected: the
first step to raise (scroll/click the invite, wait for the dialog, wait
for 'Send without a note', scroll/click it) determines the exception. -/
def postClickExc (env : ConnEnv) : Option SelExc :=
  env.clickInviteExc.orElse fun _ =>
    env.dialogExc.orElse fun _ =>
      env.sendBtnExc.orElse fun _ => env.sendClickExc

/-- Scraper.py lines 206-251, the try body: no matching invite button
raises `TimeoutException` (line 251); otherwise the click, dialog and
send sequence ends in 'Connection request sent' unless a step raises. -/
def tryInviteFlow (name : String) (env : ConnEnv) : Except SelExc String :=
  match selectedInvite name env with
  | some _ =>
    match postClickExc env with
    | some e => .error e
    | none => .ok "Connection request sent"
  | none => .error .timeoutExc

/-- Scraper.py lines 253-264, the `except TimeoutException` fallback
detection. -/
def fallbackStatus (env : ConnEnv) : String :=
  if env.hasPending then "Request Sent"
  else if env.hasFollow then "Not connected - follow only"
  else "No invite option"

/-- Scraper.py lines 205-270: the status classification for one profile
via the try/except ladder. -/
def connStatus (name : String) (env : ConnEnv) : String :=
  match tryInviteFlow name env with
  | .ok s => s
  | .error .timeoutExc => fallbackStatus env
  | .error .noSuchElementExc => "Error - element missing"
  | .error .otherExc => "Error - unexpected"

/-- The connection stage's fixed outcome label set. -/
def connLabels : List String :=
  ["Connection request sent", "Request Sent", "Not connected - follow only",
   "No invite option", "Error - element missing", "Error - unexpected"]

/-- The result dict appended for one profile (Scraper.py lines 273-280). -/
def mkResult (pe : Profile × ConnEnv) : ResultRow :=
  { name := pe.1.name, title := pe.1.title, url := pe.1.url,
    connection := connStatus pe.1.name pe.2 }

/-- Scraper.py lines 193-282: visit each scraped profile (`driver.get` on
line 199 is outside the try block, so a navigation raise aborts the whole
loop), sleep the fixed `page_load_sleep`, classify, and append the result
row. Also returns the slept between-record pacing delays. -/
def send_connection_requests (cfg : ScraperConfig) :
    List (Profile × ConnEnv) → Except SelExc (List ResultRow × List ℚ)
  | [] => .ok ([], [])
  | pe :: rest =>
    if pe.2.navFails then .error .otherExc
    else
      match send_connection_requests cfg rest with
      | .error e => .error e
      | .ok (rs, ds) => .ok (mkResult pe :: rs, cfg.page_load_sleep :: ds)

/-- Scraper.py lines 286-298: build the output table with columns Name,
Title, LinkedIn URL, Connection and apply
`drop_duplicates(subset=["LinkedIn URL"])`; the returned list is the CSV
content written. -/
def save_results_to_csv (results : List ResultRow) : List ResultRow :=
  dedupeBy ResultRow.url results

/-- Scraper.py lines 302-321: run the connection loop over the scraped
profiles, save the de-duplicated CSV once iff an output path is
configured, and return the raw (non-de-duplicated) results. The second
component lists the CSV writes the run performed. -/
def run (cfg : ScraperConfig) (input : List (Profile × ConnEnv)) :
    Except SelExc (List ResultRow × List ℚ) × List (List ResultRow) :=
  match send_connection_requests cfg input with
  | .error e => (.error e, [])
  | .ok (rs, ds) =>
    match cfg.output_csv_path with
    | some _ => (.ok (rs, ds), [save_results_to_csv rs])
    | none => (.ok (rs, ds), [])

end LinkedInScraper

namespace Fixtures

open LinkedInMessenger LinkedInScraper

/-- A messenger configuration carrying the source defaults
`min_delay_sec = 2`, `max_delay_sec = 4` and one template. -/
def cfgMsg : MessengerConfig :=
  { messages := ["Hi {first}"], min_delay_sec := 2, max_delay_sec := 4 }

/-- A three-row input CSV whose middle row has an empty LinkedIn URL
cell. -/
def csvThree : RawCsv :=
  { header := ["Name", "LinkedIn URL"],
    rows := [["Jane Doe", "u1"], ["Bob", ""], ["Carol Smith", "u3"]] }

/-- A CSV missing the required Name column. -/
def csvNoName : RawCsv := { header := ["LinkedIn URL"], rows := [["u1"]] }

/-- The two rows `load` keeps from `csvThree`. -/
def leadJane : LeadRow := { name := some "Jane Doe", url := "u1" }

def leadCarol : LeadRow := { name := some "Carol Smith", url := "u3" }

/-- Output of the all-steps-succeed messenger run on `csvThree`. -/
def outsThree : List (LeadRow × String) :=
  [(leadJane, "Message Sent"), (leadCarol, "Message Sent")]

/-- A messaging attempt in which every automation step goes through. -/
def msgEnvOk : MsgEnv :=
  { navFails := false, openExc := false, msgButtons := [(true, true)],
    boxWaitExc := false, typeExc := false, sendExc := false }

/-- A record whose profile navigation raises. -/
def msgEnvNav : MsgEnv := { msgEnvOk with navFails := true }

/-- A record whose first messaging try block raises (caught, mapped to
"Failed"). -/
def msgEnvOpen : MsgEnv := { msgEnvOk with openExc := true }

/-- A scraper configuration with an output path and the default
between-record sleep 3. -/
def cfgScr : ScraperConfig :=
  { page_load_sleep := 3, output_csv_path := some "linkedin_leads.csv" }

/-- A scraper configuration whose between-record sleep is 7, outside the
pipeline's only configured pacing interval [2, 4]. -/
def cfgScr7 : ScraperConfig := { page_load_sleep := 7, output_csv_path := none }

/-- One scraped profile. -/
def profAnn : Profile := { name := "Ann Lee", title := "CFO", url := "u9" }

/-- A connection attempt on a page with no invite, pending or follow
control. -/
def connEnvQuiet : ConnEnv :=
  { navFails := false, ariaLabels := [], clickInviteExc := none, dialogExc := none,
    sendBtnExc := none, sendClickExc := none, hasPending := false, hasFollow := false }

/-- A connection attempt in which the record's invite button is found and
clicked but the confirmation dialog never appears, so the bounded wait
raises `TimeoutException`. -/
def connEnvDialogTimeout : ConnEnv :=
  { connEnvQuiet with
    ariaLabels := ["Invite John Doe to connect"], dialogExc := some .timeoutExc }

/-- A connection attempt whose navigation raises. -/
def connEnvNav : ConnEnv := { connEnvQuiet with navFails := true }

/-- A connection attempt raising `NoSuchElementException` while clicking
the selected invite button. -/
def connEnvNoSuch : ConnEnv :=
  { connEnvQuiet with
    ariaLabels := ["Invite Ann Lee to connect"],
    clickInviteExc := some .noSuchElementExc }

/-- The connection-stage result row for `profAnn` on a quiet page. -/
def rowAnn : ResultRow :=
  { name := "Ann Lee", title := "CFO", url := "u9", connection := "No invite option" }

/-- Two scraped profiles sharing one LinkedIn URL. -/
def inputDup : List (Profile × ConnEnv) :=
  [(profAnn, connEnvQuiet), (profAnn, connEnvQuiet)]

end Fixtures

section DedupeLemmas

variable {α β : Type*} [DecidableEq β] (key : α → β)

theorem dedupeAux_sublist (seen : List β) (l : List α) :
    (dedupeAux key seen l).Sublist l := by
  induction l generalizing seen with
  | nil => simp [dedupeAux]
  | cons x xs ih =>
    unfold dedupeAux
    split
    · exact (ih _).cons x
    · exact (ih _).cons₂ x

theorem mem_dedupeAux_not_seen (seen : List β) (l : List α) (a : α)
    (ha : a ∈ dedupeAux key seen l) : key a ∉ seen := by
  induction l generalizing seen with
  | nil => simp [dedupeAux] at ha
  | cons x xs ih =>
    unfold dedupeAux at ha
    split at ha
    · exact ih _ ha
    · rcases List.mem_cons.mp ha with rfl | ha
      · assumption
      · have := ih _ ha
        exact fun hmem => this (List.mem_cons_of_mem _ hmem)

theorem dedupeAux_pairwise (seen : List β) (l : List α) :
    (dedupeAux key seen l).Pairwise fun a b => key a ≠ key b := by
  induction l generalizing seen with
  | nil => simp [dedupeAux]
  | cons x xs ih =>
    unfold dedupeAux
    split
    · exact ih _
    · refine List.Pairwise.cons (fun b hb => ?_) (ih _)
      have hnot := mem_dedupeAux_not_seen key _ _ _ hb
      exact fun hxb => hnot (by simp [← hxb])

theorem dedupeAux_eq_self (l : List α) :
    ∀ seen : List β, (l.Pairwise fun a b => key a ≠ key b) →
      (∀ a ∈ l, key a ∉ seen) → dedupeAux key seen l = l := by
  induction l with
  | nil => intro seen _ _; rfl
  | cons x xs ih =>
    intro seen hpw hseen
    unfold dedupeAux
    rw [if_neg (hseen x (by simp))]
    congr 1
    refine ih _ (List.Pairwise.of_cons hpw) fun a ha => ?_
    have hx : key x ≠ key a := (List.pairwise_cons.mp hpw).1 a ha
    simp only [List.mem_cons]
    rintro (h | h)
    · exact hx h.symm
    · exact hseen a (List.mem_cons_of_mem _ ha) h

theorem dedupeBy_idem (l : List α) :
    dedupeBy key (dedupeBy key l) = dedupeBy key l :=
  dedupeAux_eq_self key _ [] (dedupeAux_pairwise key [] l) (by simp)

theorem dedupeAux_congr_seen (l : List α) (s t : List β)
    (hst : ∀ b, b ∈ s ↔ b ∈ t) : dedupeAux key s l = dedupeAux key t l := by
  induction l generalizing s t with
  | nil => rfl
  | cons x xs ih =>
    unfold dedupeAux
    by_cases h : key x ∈ s
    · rw [if_pos h, if_pos ((hst _).mp h), ih _ _ hst]
    · rw [if_neg h, if_neg fun hh => h ((hst _).mpr hh)]
      congr 1
      refine ih _ _ fun b => ?_
      simp [hst b]

theorem dedupeAux_cons_seen (l : List α) (c : β) :
    ∀ seen : List β, dedupeAux key (c :: seen) l
      = dedupeAux key seen (l.filter fun a => key a ≠ c) := by
  induction l with
  | nil => intro seen; rfl
  | cons x xs ih =>
    intro seen
    by_cases hxc : key x = c
    · have hf : (x :: xs).filter (fun a => decide (key a ≠ c))
          = xs.filter fun a => decide (key a ≠ c) := by
        simp [List.filter_cons, hxc]
      have h1 : dedupeAux key (c :: seen) (x :: xs) = dedupeAux key (c :: seen) xs := by
        simp only [dedupeAux]
        rw [if_pos (by simp [hxc])]
      rw [hf, h1, ih]
    · have hf : (x :: xs).filter (fun a => decide (key a ≠ c))
          = x :: xs.filter fun a => decide (key a ≠ c) := by
        simp [List.filter_cons, hxc]
      rw [hf]
      by_cases hxs : key x ∈ seen
      · have h1 : dedupeAux key (c :: seen) (x :: xs) = dedupeAux key (c :: seen) xs := by
          simp only [dedupeAux]
          rw [if_pos (by simp [hxs])]
        have h2 : dedupeAux key seen (x :: xs.filter fun a => decide (key a ≠ c))
            = dedupeAux key seen (xs.filter fun a => decide (key a ≠ c)) := by
          simp only [dedupeAux]
          rw [if_pos hxs]
        rw [h1, h2, ih]
      · have h1 : dedupeAux key (c :: seen) (x :: xs)
            = x :: dedupeAux key (key x :: c :: seen) xs := by
          simp only [dedupeAux]
          rw [if_neg (by simp [hxc, hxs])]
        have h2 : dedupeAux key seen (x :: xs.filter fun a => decide (key a ≠ c))
            = x :: dedupeAux key (key x :: seen) (xs.filter fun a => decide (key a ≠ c)) := by
          simp only [dedupeAux]
          rw [if_neg hxs]
        rw [h1, h2]
        congr 1
        calc dedupeAux key (key x :: c :: seen) xs
            = dedupeAux key (c :: key x :: seen) xs := by
              refine dedupeAux_congr_seen key _ _ _ fun b => ?_
              constructor <;> intro h <;> simp only [List.mem_cons] at h ⊢ <;> tauto
          _ = dedupeAux key (key x :: seen) (xs.filter fun a => key a ≠ c) := ih _

theorem dedupeBy_cons (x : α) (xs : List α) :
    dedupeBy key (x :: xs)
      = x :: dedupeBy key (xs.filter fun a => key a ≠ key x) := by
  have h1 : dedupeAux key [] (x :: xs) = x :: dedupeAux key [key x] xs := by
    simp only [dedupeAux]
    rw [if_neg (List.not_mem_nil _)]
  show dedupeAux key [] (x :: xs)
      = x :: dedupeAux key [] (xs.filter fun a => key a ≠ key x)
  rw [h1]
  congr 1
  exact dedupeAux_cons_seen key xs (key x) []

end DedupeLemmas

/-- Claim C9: de-duplication as the scrape stage persists it (by the
'LinkedIn URL' key, over rows with columns Name, Title, LinkedIn URL,
Connection) is idempotent, order-stable (the result is a sublist of the
input, so first-seen order is preserved), keeps exactly the first
occurrence of each URL (the cons equation), and is what
`save_results_to_csv` writes. -/
theorem claim_c9 :
    (∀ l : List LinkedInScraper.ResultRow,
      dedupeBy LinkedInScraper.ResultRow.url (dedupeBy LinkedInScraper.ResultRow.url l)
        = dedupeBy LinkedInScraper.ResultRow.url l)
    ∧ (∀ l : List LinkedInScraper.ResultRow,
      (dedupeBy LinkedInScraper.ResultRow.url l).Sublist l)
    ∧ (∀ (x : LinkedInScraper.ResultRow) (xs : List LinkedInScraper.ResultRow),
      dedupeBy LinkedInScraper.ResultRow.url (x :: xs)
        = x :: dedupeBy LinkedInScraper.ResultRow.url (xs.filter fun y => y.url ≠ x.url))
    ∧ (∀ rs : List LinkedInScraper.ResultRow,
      LinkedInScraper.save_results_to_csv rs = dedupeBy LinkedInScraper.ResultRow.url rs) :=
  ⟨fun l => dedupeBy_idem _ l,
   fun l => dedupeAux_sublist _ [] l,
   fun x xs => dedupeBy_cons _ x xs,
   fun _ => rfl⟩

namespace LinkedInMessenger

theorem send_message_mem (messages : List String) (env : MsgEnv) :
    send_message_to_profile messages env ∈ msgLabels := by
  unfold send_message_to_profile
  split_ifs <;> simp [msgLabels]

theorem runLoop_ok (cfg : MessengerConfig) (envs : Nat → MsgEnv) (draws : Nat → ℚ) :
    ∀ (rows : List LeadRow) (i : Nat) (outs : List (LeadRow × String)) (ds : List ℚ),
      runLoop cfg envs draws i rows = .ok (outs, ds) →
      outs.map Prod.fst = rows ∧ (∀ p ∈ outs, p.2 ∈ msgLabels)
        ∧ ds.length = rows.length := by
  intro rows
  induction rows with
  | nil =>
    intro i outs ds h
    simp [runLoop] at h
    obtain ⟨h1, h2⟩ := h
    subst h1
    subst h2
    simp
  | cons r rs ih =>
    intro i outs ds h
    unfold runLoop at h
    split at h
    · simp at h
    · cases hrec : runLoop cfg envs draws (i + 1) rs with
      | error e => rw [hrec] at h; simp at h
      | ok p =>
        obtain ⟨outs1, ds1⟩ := p
        rw [hrec] at h
        simp at h
        obtain ⟨ho, hd⟩ := h
        obtain ⟨h1, h2, h3⟩ := ih (i + 1) outs1 ds1 hrec
        subst ho
        subst hd
        refine ⟨by simp [h1], fun p hp => ?_, by simp [h3]⟩
        rcases List.mem_cons.mp hp with rfl | hp
        · exact send_message_mem _ _
        · exact h2 p hp

theorem runLoop_delay_shape (cfg : MessengerConfig) (envs : Nat → MsgEnv)
    (draws : Nat → ℚ) :
    ∀ (rows : List LeadRow) (i : Nat) (outs : List (LeadRow × String)) (ds : List ℚ),
      runLoop cfg envs draws i rows = .ok (outs, ds) →
      ∀ d ∈ ds, ∃ j, d = uniformDraw cfg.min_delay_sec cfg.max_delay_sec (draws j) := by
  intro rows
  induction rows with
  | nil =>
    intro i outs ds h
    simp [runLoop] at h
    obtain ⟨_, h2⟩ := h
    subst h2
    simp
  | cons r rs ih =>
    intro i outs ds h
    unfold runLoop at h
    split at h
    · simp at h
    · cases hrec : runLoop cfg envs draws (i + 1) rs with
      | error e => rw [hrec] at h; simp at h
      | ok p =>
        obtain ⟨outs1, ds1⟩ := p
        rw [hrec] at h
        simp at h
        obtain ⟨_, hd⟩ := h
        subst hd
        intro d hd
        rcases List.mem_cons.mp hd with rfl | hd
        · exact ⟨i, rfl⟩
        · exact ih (i + 1) outs1 ds1 hrec d hd

theorem runLoop_total (cfg : MessengerConfig) (envs : Nat → MsgEnv) (draws : Nat → ℚ)
    (hnav : ∀ i, (envs i).navFails = false) :
    ∀ (rows : List LeadRow) (i : Nat),
      ∃ outs ds, runLoop cfg envs draws i rows = .ok (outs, ds) := by
  intro rows
  induction rows with
  | nil => intro i; exact ⟨[], [], rfl⟩
  | cons r rs ih =>
    intro i
    obtain ⟨outs, ds, h⟩ := ih (i + 1)
    refine ⟨(r, send_message_to_profile cfg.messages (envs i)) :: outs,
      uniformDraw cfg.min_delay_sec cfg.max_delay_sec (draws i) :: ds, ?_⟩
    unfold runLoop
    rw [if_neg (by simp [hnav i]), h]

theorem run_ok_inv (cfg : MessengerConfig) (envs : Nat → MsgEnv) (draws : Nat → ℚ)
    (csv : RawCsv) (outs : List (LeadRow × String)) (ds : List ℚ)
    (ws : List (List (LeadRow × String)))
    (h : run cfg envs draws csv = (.ok (outs, ds), ws)) :
    ∃ rows, load csv = .ok rows
      ∧ runLoop cfg envs draws 0 rows = .ok (outs, ds) ∧ ws = [outs] := by
  unfold run at h
  cases hload : load csv with
  | error m => rw [hload] at h; simp at h
  | ok rows =>
    rw [hload] at h
    simp only [] at h
    cases hloop : runLoop cfg envs draws 0 rows with
    | error e => rw [hloop] at h; simp at h
    | ok p =>
      obtain ⟨outs1, ds1⟩ := p
      rw [hloop] at h
      simp at h
      obtain ⟨⟨ho, hd⟩, hw⟩ := h
      subst ho
      subst hd
      subst hw
      exact ⟨rows, rfl, hloop, rfl⟩

theorem run_error_no_write (cfg : MessengerConfig) (envs : Nat → MsgEnv)
    (draws : Nat → ℚ) (csv : RawCsv) (e : MsgAbort)
    (ws : List (List (LeadRow × String)))
    (h : run cfg envs draws csv = (.error e, ws)) : ws = [] := by
  unfold run at h
  cases hload : load csv with
  | error m => rw [hload] at h; simp at h; exact h.2
  | ok rows =>
    rw [hload] at h
    simp only [] at h
    cases hloop : runLoop cfg envs draws 0 rows with
    | error e1 => rw [hloop] at h; simp at h; exact h.2
    | ok p =>
      obtain ⟨outs1, ds1⟩ := p
      rw [hloop] at h
      simp at h

end LinkedInMessenger

namespace LinkedInScraper

theorem fallbackStatus_mem (env : ConnEnv) : fallbackStatus env ∈ connLabels := by
  unfold fallbackStatus
  split_ifs <;> simp [connLabels]

theorem tryInviteFlow_ok_eq (name : String) (env : ConnEnv) (s : String)
    (h : tryInviteFlow name env = .ok s) : s = "Connection request sent" := by
  unfold tryInviteFlow at h
  cases hsel : selectedInvite name env with
  | none => rw [hsel] at h; simp at h
  | some b =>
    rw [hsel] at h
    simp only [] at h
    cases hpc : postClickExc env with
    | none => rw [hpc] at h; simp at h; exact h.symm
    | some e => rw [hpc] at h; simp at h

theorem connStatus_mem (name : String) (env : ConnEnv) :
    connStatus name env ∈ connLabels := by
  cases htf : tryInviteFlow name env with
  | error e =>
    cases e
    · simpa [connStatus, htf] using fallbackStatus_mem env
    · simp [connStatus, htf, connLabels]
    · simp [connStatus, htf, connLabels]
  | ok s =>
    have hs := tryInviteFlow_ok_eq name env s htf
    subst hs
    simp [connStatus, htf, connLabels]

theorem send_conn_ok_inv (cfg : ScraperConfig) :
    ∀ (input : List (Profile × ConnEnv)) (rs : List ResultRow) (ds : List ℚ),
      send_connection_requests cfg input = .ok (rs, ds) →
      rs = input.map mkResult
        ∧ ds = List.replicate input.length cfg.page_load_sleep := by
  intro input
  induction input with
  | nil =>
    intro rs ds h
    simp [send_connection_requests] at h
    obtain ⟨h1, h2⟩ := h
    subst h1
    subst h2
    simp
  | cons pe rest ih =>
    intro rs ds h
    unfold send_connection_requests at h
    split at h
    · simp at h
    · cases hrec : send_connection_requests cfg rest with
      | error e => rw [hrec] at h; simp at h
      | ok q =>
        obtain ⟨rs1, ds1⟩ := q
        rw [hrec] at h
        simp at h
        obtain ⟨h1, h2⟩ := h
        obtain ⟨ih1, ih2⟩ := ih rs1 ds1 hrec
        subst h1
        subst h2
        simp [ih1, ih2, List.replicate_succ]

theorem send_conn_total (cfg : ScraperConfig) :
    ∀ input : List (Profile × ConnEnv),
      (∀ pe ∈ input, pe.2.navFails = false) →
      send_connection_requests cfg input
        = .ok (input.map mkResult,
            List.replicate input.length cfg.page_load_sleep) := by
  intro input
  induction input with
  | nil => intro _; rfl
  | cons pe rest ih =>
    intro hnav
    have h1 : pe.2.navFails = false := hnav pe (by simp)
    have h2 := ih fun q hq => hnav q (List.mem_cons_of_mem _ hq)
    unfold send_connection_requests
    rw [if_neg (by simp [h1]), h2]
    simp [List.replicate_succ]

theorem scraper_run_ok_inv (cfg : ScraperConfig) (input : List (Profile × ConnEnv))
    (rs : List ResultRow) (ds : List ℚ) (ws : List (List ResultRow))
    (h : run cfg input = (.ok (rs, ds), ws)) :
    send_connection_requests cfg input = .ok (rs, ds)
      ∧ (cfg.output_csv_path ≠ none → ws = [save_results_to_csv rs])
      ∧ (cfg.output_csv_path = none → ws = []) := by
  unfold run at h
  cases hsend : send_connection_requests cfg input with
  | error e => rw [hsend] at h; simp at h
  | ok q =>
    obtain ⟨rs1, ds1⟩ := q
    rw [hsend] at h
    simp only [] at h
    cases hpath : cfg.output_csv_path with
    | none =>
      rw [hpath] at h
      simp at h
      obtain ⟨⟨h1, h2⟩, h3⟩ := h
      subst h1
      subst h2
      subst h3
      exact ⟨rfl, by simp, by simp⟩
    | some path =>
      rw [hpath] at h
      simp at h
      obtain ⟨⟨h1, h2⟩, h3⟩ := h
      subst h1
      subst h2
      subst h3
      exact ⟨rfl, by simp, by simp⟩

theorem scraper_run_error_no_write (cfg : ScraperConfig)
    (input : List (Profile × ConnEnv)) (e : SelExc) (ws : List (List ResultRow))
    (h : run cfg input = (.error e, ws)) : ws = [] := by
  unfold run at h
  cases hsend : send_connection_requests cfg input with
  | error e1 => rw [hsend] at h; simp at h; exact h.2
  | ok q =>
    obtain ⟨rs1, ds1⟩ := q
    rw [hsend] at h
    simp only [] at h
    cases hpath : cfg.output_csv_path with
    | none => rw [hpath] at h; simp at h
    | some path => rw [hpath] at h; simp at h

end LinkedInScraper

/-- Claim C1: every record that enters a stage run emerges in the output
with exactly one outcome label drawn from the stage's fixed label set,
and no unattempted record appears in the output: a completed messenger
run's output pairs exactly the loaded, null-URL-filtered rows in order,
each with a label of `msgLabels`, and a completed connection loop yields
exactly one result row per scraped profile, each with a label of
`connLabels`. -/
theorem claim_c1 :
    (∀ (cfg : LinkedInMessenger.MessengerConfig)
        (envs : Nat → LinkedInMessenger.MsgEnv) (draws : Nat → ℚ)
        (csv : LinkedInMessenger.RawCsv) rows outs ds ws,
      LinkedInMessenger.load csv = .ok rows →
      LinkedInMessenger.run cfg envs draws csv = (.ok (outs, ds), ws) →
      outs.map Prod.fst = rows ∧ ∀ p ∈ outs, p.2 ∈ LinkedInMessenger.msgLabels)
    ∧ (∀ (cfg : LinkedInScraper.ScraperConfig)
        (input : List (LinkedInScraper.Profile × LinkedInScraper.ConnEnv)) rs ds,
      LinkedInScraper.send_connection_requests cfg input = .ok (rs, ds) →
      rs = input.map LinkedInScraper.mkResult
        ∧ ∀ r ∈ rs, r.connection ∈ LinkedInScraper.connLabels) := by
  constructor
  · intro cfg envs draws csv rows outs ds ws hload hrun
    obtain ⟨rows1, hload1, hloop, _⟩ :=
      LinkedInMessenger.run_ok_inv cfg envs draws csv outs ds ws hrun
    rw [hload] at hload1
    injection hload1 with hrows
    subst hrows
    obtain ⟨h1, h2, _⟩ := LinkedInMessenger.runLoop_ok cfg envs draws rows 0 outs ds hloop
    exact ⟨h1, h2⟩
  · intro cfg input rs ds hsend
    obtain ⟨h1, _⟩ := LinkedInScraper.send_conn_ok_inv cfg input rs ds hsend
    subst h1
    refine ⟨rfl, fun r hr => ?_⟩
    obtain ⟨pe, _, rfl⟩ := List.mem_map.mp hr
    exact LinkedInScraper.connStatus_mem _ _

/-- Claim C1 witness: running the messenger over the three-row fixture
CSV (one row has an empty URL cell) with every automation step
succeeding, the output is exactly the two loaded rows in order, each
carrying a label of the messaging label set. -/
theorem claim_c1_witness :
    Fixtures.outsThree.map Prod.fst = [Fixtures.leadJane, Fixtures.leadCarol]
      ∧ ∀ p ∈ Fixtures.outsThree, p.2 ∈ LinkedInMessenger.msgLabels :=
  claim_c1.1 Fixtures.cfgMsg (fun _ => Fixtures.msgEnvOk) (fun _ => 0)
    Fixtures.csvThree [Fixtures.leadJane, Fixtures.leadCarol] Fixtures.outsThree
    [LinkedInMessenger.uniformDraw 2 4 0, LinkedInMessenger.uniformDraw 2 4 0]
    [Fixtures.outsThree] rfl rfl

/-- Claim C2 counterexample: a failure raised while navigating to the
record's profile URL is not caught and mapped to an outcome label — in
both stages `driver.get` sits outside the per-record try blocks, so the
run aborts with no outcome recorded for the record, the remaining records
unprocessed, and nothing persisted. -/
theorem claim_c2_counterexample :
    LinkedInMessenger.run Fixtures.cfgMsg (fun _ => Fixtures.msgEnvNav) (fun _ => 0)
        Fixtures.csvThree = (.error .navError, [])
      ∧ LinkedInScraper.send_connection_requests Fixtures.cfgScr
          [(Fixtures.profAnn, Fixtures.connEnvNav)] = .error .otherExc :=
  ⟨rfl, rfl⟩

/-- Claim C2 (amended): every per-record failure raised inside the
stages' try blocks is caught, mapped to a label of the stage's label set,
and recorded, and processing continues to the next record — for any
combination of per-step failures, a run whose navigations all succeed
completes with every record labelled. The navigation to the record's
profile URL is the one per-record step outside the try blocks: its
failure aborts the stage run (see the counterexample). -/
theorem claim_c2 :
    (∀ (cfg : LinkedInMessenger.MessengerConfig)
        (envs : Nat → LinkedInMessenger.MsgEnv) (draws : Nat → ℚ)
        (csv : LinkedInMessenger.RawCsv) rows,
      LinkedInMessenger.load csv = .ok rows →
      (∀ i, (envs i).navFails = false) →
      ∃ outs ds,
        LinkedInMessenger.run cfg envs draws csv = (.ok (outs, ds), [outs])
          ∧ outs.map Prod.fst = rows
          ∧ ∀ p ∈ outs, p.2 ∈ LinkedInMessenger.msgLabels)
    ∧ (∀ (cfg : LinkedInScraper.ScraperConfig)
        (input : List (LinkedInScraper.Profile × LinkedInScraper.ConnEnv)),
      (∀ pe ∈ input, (Prod.snd pe).navFails = false) →
      LinkedInScraper.send_connection_requests cfg input
        = .ok (input.map LinkedInScraper.mkResult,
            List.replicate input.length cfg.page_load_sleep)
        ∧ ∀ r ∈ input.map LinkedInScraper.mkResult,
            r.connection ∈ LinkedInScraper.connLabels) := by
  constructor
  · intro cfg envs draws csv rows hload hnav
    obtain ⟨outs, ds, hloop⟩ :=
      LinkedInMessenger.runLoop_total cfg envs draws hnav rows 0
    refine ⟨outs, ds, ?_, ?_, ?_⟩
    · simp only [LinkedInMessenger.run, hload, hloop]
    · exact (LinkedInMessenger.runLoop_ok cfg envs draws rows 0 outs ds hloop).1
    · exact (LinkedInMessenger.runLoop_ok cfg envs draws rows 0 outs ds hloop).2.1
  · intro cfg input hnav
    refine ⟨LinkedInScraper.send_conn_total cfg input hnav, fun r hr => ?_⟩
    obtain ⟨pe, _, rfl⟩ := List.mem_map.mp hr
    exact LinkedInScraper.connStatus_mem _ _

/-- Claim C2 witness: a record whose first messaging try block raises is
caught and recorded as "Failed", and the run still completes, labelling
both loaded records. -/
theorem claim_c2_witness :
    ∃ outs ds,
      LinkedInMessenger.run Fixtures.cfgMsg (fun _ => Fixtures.msgEnvOpen) (fun _ => 0)
          Fixtures.csvThree = (.ok (outs, ds), [outs])
        ∧ outs.map Prod.fst = [Fixtures.leadJane, Fixtures.leadCarol]
        ∧ ∀ p ∈ outs, p.2 ∈ LinkedInMessenger.msgLabels :=
  claim_c2.1 Fixtures.cfgMsg (fun _ => Fixtures.msgEnvOpen) (fun _ => 0)
    Fixtures.csvThree [Fixtures.leadJane, Fixtures.leadCarol] rfl (fun _ => rfl)

/-- Claim C3 counterexample: the record's invite button is found and
clicked, then the lookup of the confirmation dialog fails — the bounded
wait raises `TimeoutException` — and the claim demands
'Error - element missing', but the code's `except TimeoutException` arm
runs the fallback detection and returns 'No invite option'. -/
theorem claim_c3_counterexample :
    LinkedInScraper.selectedInvite "John Doe" Fixtures.connEnvDialogTimeout
        = some "Invite John Doe to connect"
      ∧ LinkedInScraper.connStatus "John Doe" Fixtures.connEnvDialogTimeout
        = "No invite option" :=
  ⟨rfl, rfl⟩

/-- Claim C3 (amended): after an invite control was found and clicked,
the exception class of the first failing step decides the outcome: a
bounded-wait timeout — which is how a missing confirmation dialog or a
missing 'Send without a note' control actually surfaces, since
`wait.until` raises `TimeoutException` — falls through to the fallback
detection (Pending → 'Request Sent', else Follow → 'Not connected -
follow only', else 'No invite option'); a `NoSuchElementException` yields
'Error - element missing'; any other unexpected failure yields
'Error - unexpected'. -/
theorem claim_c3 (name : String) (env : LinkedInScraper.ConnEnv) (b : String)
    (e : LinkedInScraper.SelExc)
    (hsel : LinkedInScraper.selectedInvite name env = some b)
    (hexc : LinkedInScraper.postClickExc env = some e) :
    LinkedInScraper.connStatus name env =
      match e with
      | .timeoutExc => LinkedInScraper.fallbackStatus env
      | .noSuchElementExc => "Error - element missing"
      | .otherExc => "Error - unexpected" := by
  simp only [LinkedInScraper.connStatus, LinkedInScraper.tryInviteFlow, hsel, hexc]
  cases e <;> rfl

/-- Claim C3 witness: a `NoSuchElementException` raised after the invite
click yields 'Error - element missing'. -/
theorem claim_c3_witness :
    LinkedInScraper.connStatus "Ann Lee" Fixtures.connEnvNoSuch
      = "Error - element missing" :=
  claim_c3 "Ann Lee" Fixtures.connEnvNoSuch "Invite Ann Lee to connect"
    .noSuchElementExc rfl rfl

/-- Claim C6: when no invite control matching the record is selected —
the page has no invite buttons, or the tie-break finds none whose
aria-label contains the record's name — the outcome is decided by
fallback detection: a Pending control yields 'Request Sent', otherwise a
Follow control yields 'Not connected - follow only', and neither yields
'No invite option'. -/
theorem claim_c6 (name : String) (env : LinkedInScraper.ConnEnv)
    (h : LinkedInScraper.selectedInvite name env = none) :
    LinkedInScraper.connStatus name env =
      (if env.hasPending then "Request Sent"
       else if env.hasFollow then "Not connected - follow only"
       else "No invite option") := by
  simp only [LinkedInScraper.connStatus, LinkedInScraper.tryInviteFlow, h,
    LinkedInScraper.fallbackStatus]

/-- Claim C6 witness: a page with no invite, pending or follow control
yields 'No invite option'. -/
theorem claim_c6_witness :
    LinkedInScraper.connStatus "Ann Lee" Fixtures.connEnvQuiet
      = "No invite option" :=
  claim_c6 "Ann Lee" Fixtures.connEnvQuiet rfl

namespace LinkedInMessenger

theorem cellAt_readCell_ne (raw : List String) (j : Nat) (u : String)
    (h : cellAt (raw.map readCell) j = some u) : u ≠ "" := by
  unfold cellAt at h
  rw [List.getElem?_map] at h
  cases hg : raw[j]? with
  | none => rw [hg] at h; simp at h
  | some cell =>
    rw [hg] at h
    simp at h
    unfold readCell at h
    split at h
    · simp at h
    · rename_i hcell
      injection h with hu
      subst hu
      exact hcell

theorem load_url_ne_empty (csv : RawCsv) (rows : List LeadRow)
    (h : load csv = .ok rows) : ∀ r ∈ rows, r.url ≠ "" := by
  unfold load at h
  split at h
  · simp at h
  · injection h with hrows
    subst hrows
    intro r hr
    obtain ⟨raw, _, hmatch⟩ := List.mem_filterMap.mp hr
    cases hcell : cellAt (raw.map readCell) (csv.header.indexOf "LinkedIn URL") with
    | none => rw [hcell] at hmatch; simp at hmatch
    | some u =>
      rw [hcell] at hmatch
      simp only [Option.some.injEq] at hmatch
      subst hmatch
      exact cellAt_readCell_ne raw _ u hcell

end LinkedInMessenger

/-- Claim C4: load fails with the schema `ValueError` when a required
column ('Name' or 'LinkedIn URL') is absent; when both are present the
returned records never carry a null or empty 'LinkedIn URL' — a null or
empty URL cell reads as NaN and its row is dropped by
`dropna(subset=["LinkedIn URL"])` before processing. -/
theorem claim_c4 :
    (∀ csv : LinkedInMessenger.RawCsv,
      ("Name" ∉ csv.header ∨ "LinkedIn URL" ∉ csv.header) →
      ∃ m, LinkedInMessenger.load csv = .error m)
    ∧ (∀ (csv : LinkedInMessenger.RawCsv) rows,
      LinkedInMessenger.load csv = .ok rows → ∀ r ∈ rows, r.url ≠ "") := by
  constructor
  · intro csv hmiss
    unfold LinkedInMessenger.load
    rw [if_pos (by tauto)]
    exact ⟨_, rfl⟩
  · exact fun csv rows h => LinkedInMessenger.load_url_ne_empty csv rows h

/-- Claim C4 witness: a CSV missing the Name column is rejected with a
schema error, and the three-row fixture CSV — one row with an empty
LinkedIn URL cell — loads to exactly two records, each with a nonempty
URL. -/
theorem claim_c4_witness :
    (∃ m, LinkedInMessenger.load Fixtures.csvNoName = .error m)
      ∧ LinkedInMessenger.load Fixtures.csvThree
          = .ok [Fixtures.leadJane, Fixtures.leadCarol]
      ∧ ∀ r ∈ [Fixtures.leadJane, Fixtures.leadCarol], r.url ≠ "" :=
  ⟨claim_c4.1 Fixtures.csvNoName (by decide), rfl,
   claim_c4.2 Fixtures.csvThree [Fixtures.leadJane, Fixtures.leadCarol] rfl⟩

/-- Claim C5 counterexample: first-name extraction as the messaging stage
applies it to an absent (NaN) Name does not give the empty string: line
198 stringifies the missing value to "nan" before the blank-guard of
line 102 runs, so the extracted first name is "nan". -/
theorem claim_c5_counterexample :
    LinkedInMessenger.appliedFirst none = "nan" ∧ ("nan" : String) ≠ "" := by
  constructor
  · rfl
  · decide

/-- Claim C5 (amended): first-name extraction, as the messaging stage
applies it to a record's Name field, returns the first
whitespace-delimited token for a present name and the empty string for an
empty or blank name; an absent (null) Name yields "nan", because the
stage stringifies the NaN cell before the guard runs. -/
theorem claim_c5 :
    LinkedInMessenger.appliedFirst (some "Jane Doe") = "Jane"
      ∧ LinkedInMessenger.appliedFirst (some "") = ""
      ∧ LinkedInMessenger.appliedFirst (some "   ") = ""
      ∧ LinkedInMessenger.appliedFirst (some "Madonna") = "Madonna"
      ∧ LinkedInMessenger.appliedFirst none = "nan" := by
  decide

/-- Claim C7: each stage writes its output CSV at most once and only
after every record has been processed; an aborted run persists no partial
CSV. An erroring run performs no write; a completed messenger run
performs exactly one write, pairing every loaded row with its result; a
completed scraper run performs at most one write — present iff an output
path is configured — whose content is the saved (de-duplicated) full
result list covering all processed records. -/
theorem claim_c7 :
    (∀ (cfg : LinkedInMessenger.MessengerConfig)
        (envs : Nat → LinkedInMessenger.MsgEnv) (draws : Nat → ℚ)
        (csv : LinkedInMessenger.RawCsv),
      (∀ e ws, LinkedInMessenger.run cfg envs draws csv = (.error e, ws) → ws = [])
        ∧ (∀ outs ds ws,
            LinkedInMessenger.run cfg envs draws csv = (.ok (outs, ds), ws) →
            ws = [outs]
              ∧ ∃ rows, LinkedInMessenger.load csv = .ok rows
                  ∧ outs.map Prod.fst = rows))
    ∧ (∀ (cfg : LinkedInScraper.ScraperConfig)
        (input : List (LinkedInScraper.Profile × LinkedInScraper.ConnEnv)),
      (∀ e ws, LinkedInScraper.run cfg input = (.error e, ws) → ws = [])
        ∧ (∀ rs ds ws, LinkedInScraper.run cfg input = (.ok (rs, ds), ws) →
            ws.length ≤ 1 ∧ rs.length = input.length
              ∧ ∀ w ∈ ws, w = LinkedInScraper.save_results_to_csv rs)) := by
  constructor
  · intro cfg envs draws csv
    refine ⟨fun e ws h => LinkedInMessenger.run_error_no_write cfg envs draws csv e ws h,
      fun outs ds ws h => ?_⟩
    obtain ⟨rows, hload, hloop, hws⟩ :=
      LinkedInMessenger.run_ok_inv cfg envs draws csv outs ds ws h
    exact ⟨hws, rows, hload,
      (LinkedInMessenger.runLoop_ok cfg envs draws rows 0 outs ds hloop).1⟩
  · intro cfg input
    refine ⟨fun e ws h => LinkedInScraper.scraper_run_error_no_write cfg input e ws h,
      fun rs ds ws h => ?_⟩
    obtain ⟨hsend, hsome, hnone⟩ := LinkedInScraper.scraper_run_ok_inv cfg input rs ds ws h
    obtain ⟨hrs, _⟩ := LinkedInScraper.send_conn_ok_inv cfg input rs ds hsend
    refine ⟨?_, by simp [hrs], ?_⟩
    · cases hpath : cfg.output_csv_path with
      | none => simp [hnone hpath]
      | some p => simp [hsome (by simp [hpath])]
    · intro w hw
      cases hpath : cfg.output_csv_path with
      | none => rw [hnone hpath] at hw; simp at hw
      | some p =>
        rw [hsome (by simp [hpath])] at hw
        simpa using hw

/-- Claim C7 witness: the two-profile duplicate-URL scraper run performs
exactly one write, whose content is the saved de-duplicated result list
covering both processed records. -/
theorem claim_c7_witness :
    [[Fixtures.rowAnn]].length ≤ 1
      ∧ [Fixtures.rowAnn, Fixtures.rowAnn].length = Fixtures.inputDup.length
      ∧ ∀ w ∈ [[Fixtures.rowAnn]],
          w = LinkedInScraper.save_results_to_csv [Fixtures.rowAnn, Fixtures.rowAnn] :=
  (claim_c7.2 Fixtures.cfgScr Fixtures.inputDup).2
    [Fixtures.rowAnn, Fixtures.rowAnn] [3, 3] [[Fixtures.rowAnn]] rfl

/-- Claim C8 counterexample: in the connection stage the delay slept
between consecutive records is the fixed `page_load_sleep` — here 7 for
both gaps of a two-record run, independent of any random draw — and 7
lies outside [2, 4], the pipeline's only configured
`[min_delay, max_delay]` interval (the messenger's defaults);
`ScraperConfig` carries no pacing interval at all. -/
theorem claim_c8_counterexample :
    LinkedInScraper.send_connection_requests Fixtures.cfgScr7 Fixtures.inputDup
        = .ok ([Fixtures.rowAnn, Fixtures.rowAnn], [7, 7])
      ∧ ¬((7 : ℚ) ≤ 4) := by
  constructor
  · rfl
  · decide

/-- Claim C8 (amended): in the messaging stage every pacing delay slept
between consecutive records is `random.uniform(min_delay, max_delay)` and
falls within [min_delay, max_delay] inclusive whenever that interval is
nonempty and the draws lie in [0, 1]; the connection stage has no
configured pacing interval — its between-record delay is the constant
`page_load_sleep`. -/
theorem claim_c8 :
    (∀ (cfg : LinkedInMessenger.MessengerConfig)
        (envs : Nat → LinkedInMessenger.MsgEnv) (draws : Nat → ℚ)
        (csv : LinkedInMessenger.RawCsv) outs ds ws,
      LinkedInMessenger.run cfg envs draws csv = (.ok (outs, ds), ws) →
      cfg.min_delay_sec ≤ cfg.max_delay_sec →
      (∀ i, 0 ≤ draws i ∧ draws i ≤ 1) →
      ∀ d ∈ ds, cfg.min_delay_sec ≤ d ∧ d ≤ cfg.max_delay_sec)
    ∧ (∀ (cfg : LinkedInScraper.ScraperConfig)
        (input : List (LinkedInScraper.Profile × LinkedInScraper.ConnEnv)) rs ds,
      LinkedInScraper.send_connection_requests cfg input = .ok (rs, ds) →
      ds = List.replicate input.length cfg.page_load_sleep) := by
  constructor
  · intro cfg envs draws csv outs ds ws hrun hle hdraws d hd
    obtain ⟨rows, _, hloop, _⟩ :=
      LinkedInMessenger.run_ok_inv cfg envs draws csv outs ds ws hrun
    obtain ⟨j, rfl⟩ :=
      LinkedInMessenger.runLoop_delay_shape cfg envs draws rows 0 outs ds hloop d hd
    obtain ⟨h0, h1⟩ := hdraws j
    unfold LinkedInMessenger.uniformDraw
    constructor
    · nlinarith
    · nlinarith
  · intro cfg input rs ds h
    exact (LinkedInScraper.send_conn_ok_inv cfg input rs ds h).2

/-- Claim C8 witness: the first delay slept by the all-success messenger
run over the fixture CSV lies within the configured [2, 4]. -/
theorem claim_c8_witness :
    Fixtures.cfgMsg.min_delay_sec ≤ LinkedInMessenger.uniformDraw 2 4 0
      ∧ LinkedInMessenger.uniformDraw 2 4 0 ≤ Fixtures.cfgMsg.max_delay_sec :=
  claim_c8.1 Fixtures.cfgMsg (fun _ => Fixtures.msgEnvOk) (fun _ => 0)
    Fixtures.csvThree Fixtures.outsThree
    [LinkedInMessenger.uniformDraw 2 4 0, LinkedInMessenger.uniformDraw 2 4 0]
    [Fixtures.outsThree] rfl (by decide) (fun _ => ⟨le_refl 0, zero_le_one⟩)
    (LinkedInMessenger.uniformDraw 2 4 0) (by simp)

/-- Claim C10: the value the scrape stage's run returns is the in-memory
results list without de-duplication — one row per processed profile, in
processing order, duplicates included — even though the CSV the same run
persists is de-duplicated by 'LinkedIn URL'. -/
theorem claim_c10 (cfg : LinkedInScraper.ScraperConfig)
    (input : List (LinkedInScraper.Profile × LinkedInScraper.ConnEnv))
    (rs : List LinkedInScraper.ResultRow) (ds : List ℚ)
    (ws : List (List LinkedInScraper.ResultRow))
    (hpath : cfg.output_csv_path ≠ none)
    (h : LinkedInScraper.run cfg input = (.ok (rs, ds), ws)) :
    rs = input.map LinkedInScraper.mkResult
      ∧ ws = [dedupeBy LinkedInScraper.ResultRow.url rs] := by
  obtain ⟨hsend, hsome, _⟩ := LinkedInScraper.scraper_run_ok_inv cfg input rs ds ws h
  obtain ⟨hrs, _⟩ := LinkedInScraper.send_conn_ok_inv cfg input rs ds hsend
  exact ⟨hrs, hsome hpath⟩

/-- Claim C10 witness: for two scraped profiles sharing one URL, the run
returns both result rows while its single persisted CSV keeps the URL
once. -/
theorem claim_c10_witness :
    [Fixtures.rowAnn, Fixtures.rowAnn] = Fixtures.inputDup.map LinkedInScraper.mkResult
      ∧ [[Fixtures.rowAnn]]
        = [dedupeBy LinkedInScraper.ResultRow.url [Fixtures.rowAnn, Fixtures.rowAnn]] :=
  claim_c10 Fixtures.cfgScr Fixtures.inputDup [Fixtures.rowAnn, Fixtures.rowAnn]
    [3, 3] [[Fixtures.rowAnn]] (by decide) rfl

end UI1stTry
